import Mathlib

/-!
# Verification of the wbac session log store and query engine

Shallow embedding of `src/services/stagehand-service.js` (class
`StagehandService`): the session log store (`this.instances`, `this.logs`),
the event ingestor (`_setupMonitoring`), the log query engine
(`getConsoleLogs` / `getNetworkLogs` with their normalization and
formatting helpers) and the lifecycle operations
(`getOrCreateInstance` / `cleanupInstance`).

Modelling conventions:
* JS strings are Lean `String`s; a field that can be `null`/`undefined`
  is an `Option`.
* Timestamps are stored in the JS code as ISO strings and compared via
  `new Date(...)`, i.e. numerically on epoch milliseconds; we model a
  timestamp directly as the epoch-millisecond integer (`Int`).
* HTTP status codes (`response.status()`) are JS numbers; we model them
  as `Int` so that out-of-range values such as 0 or 600 are expressible.
* Console `args` values are stringified with `String(arg)` before any
  use; we model each arg as the resulting `String`.
* A network body is either a string (from `response.text()`) or a JSON
  value (from `response.json()`) that is stringified by
  `JSON.stringify` before length checks or matching; we model the body
  as the resulting `String` (`Option String` since it can be `null`).
-/

namespace Wbac

/-- JS `haystack.includes(needle)` on lists of characters: `subAt pat s`
is true when `pat` occurs at the very front of `s`. -/
def subAt : List Char → List Char → Bool
  | [], _ => true
  | _ :: _, [] => false
  | p :: ps, c :: cs => p == c && subAt ps cs

/-- `hasSub pat s` is true when `pat` occurs contiguously anywhere in `s`
(the empty pattern occurs everywhere, as with JS `includes`). -/
def hasSub (pat : List Char) : List Char → Bool
  | [] => subAt pat []
  | c :: cs => subAt pat (c :: cs) || hasSub pat cs

/-- JS `s.includes(pat)`: substring containment on strings. -/
def strIncludes (s pat : String) : Bool :=
  hasSub pat.toList s.toList

/-- Lowercasing used for case-insensitive matching, JS `toLowerCase()`. -/
def jsLower (s : String) : String :=
  s.map Char.toLower

/-- `lowerOrEmpty` models `x?.toLowerCase() || ""`: a missing field
contributes the empty string to the searchable content. -/
def lowerOrEmpty : Option String → String
  | none => ""
  | some s => jsLower s

/-- The `truncate` closure of `_formatConsoleLog` / `_formatNetworkLog`
(stagehand-service.js lines 203-207 and 295-300):
`if (!str) return str; if (str.length <= length) return str;
return str.substring(0, length) + "... (truncated)";`.
The falsy check `!str` returns the empty string unchanged, which agrees
with the `length <= limit` branch; objects reaching the network variant
are first stringified, which the model performs at ingestion. -/
def strTruncate (s : String) (len : Nat) : String :=
  if s.isEmpty then s
  else if s.length ≤ len then s
  else s.take len ++ "... (truncated)"

/-- `truncate` applied to a possibly-`null` field: `null` stays `null`. -/
def optTruncate (s : Option String) (len : Nat) : Option String :=
  s.map (fun str => strTruncate str len)

/-! ## Data model: stored entries (spec §3, built by `_setupMonitoring`) -/

/-- A stored console log entry (stagehand-service.js lines 47-53). -/
structure ConsoleLogEntry where
  type : String
  message : Option String
  path : Option String
  timestamp : Int
  stackTrace : Option String
  args : Option (List String)
  deriving Repr, DecidableEq

/-- Request half of a stored network entry (lines 64-68). -/
structure NetworkRequestData where
  headers : List (String × String)
  body : Option String
  queryParams : String
  deriving Repr, DecidableEq

/-- Response half of a stored network entry (lines 69-72). -/
structure NetworkResponseData where
  headers : List (String × String)
  body : Option String
  deriving Repr, DecidableEq

/-- A stored network log entry (stagehand-service.js lines 59-73). -/
structure NetworkLogEntry where
  url : String
  method : String
  status : Int
  timestamp : Int
  request : NetworkRequestData
  response : NetworkResponseData
  deriving Repr, DecidableEq

/-- An `actErrors.network` entry for a failed request (lines 113-119). -/
structure FailedRequestEntry where
  type : String
  url : String
  method : String
  timestamp : Int
  errorText : String
  deriving Repr, DecidableEq

/-- The auxiliary `actErrors` bucket (lines 29-33). `actionLogs` is only
ever created empty in this file; its elements are modelled as strings. -/
structure ActErrors where
  console : List ConsoleLogEntry
  network : List FailedRequestEntry
  actionLogs : List String
  deriving Repr, DecidableEq

/-- One `SessionLogs` record as created by `getOrCreateInstance`
(lines 26-34). -/
structure SessionLogs where
  console : List ConsoleLogEntry
  network : List NetworkLogEntry
  actErrors : ActErrors
  deriving Repr, DecidableEq

/-- The fresh record `{console: [], network: [], actErrors: {...}}`. -/
def SessionLogs.empty : SessionLogs :=
  { console := [], network := [], actErrors := ⟨[], [], []⟩ }

/-! ## Filter specifications and their normalization -/

/-- Normalized per-severity booleans (`levels` after
`_normalizeConsoleLogFilters`, lines 142-147). -/
structure ConsoleLevels where
  error : Bool
  warning : Bool
  info : Bool
  trace : Bool
  deriving Repr, DecidableEq

/-- Raw (caller-supplied) `levels`, every field possibly absent. -/
structure RawConsoleLevels where
  error : Option Bool
  warning : Option Bool
  info : Option Bool
  trace : Option Bool
  deriving Repr, DecidableEq

/-- Raw console filter spec as accepted by `getConsoleLogs`. A
non-array `includeStringFilters`/`excludeStringFilters` is modelled as
`none` (the `Array.isArray` check maps it to `[]`); `startTime`/`endTime`
are already-parsed epoch instants when supplied; a supplied
`truncateLength` of `0` is falsy in JS and falls back to the default. -/
structure RawConsoleFilters where
  levels : Option RawConsoleLevels
  excludeStringFilters : Option (List String)
  includeStringFilters : Option (List String)
  startTime : Option Int
  endTime : Option Int
  truncateLength : Option Nat
  deriving Repr, DecidableEq

/-- Normalized console filter spec (result of
`_normalizeConsoleLogFilters`). -/
structure ConsoleFilters where
  levels : ConsoleLevels
  excludeStringFilters : List String
  includeStringFilters : List String
  startTime : Option Int
  endTime : Option Int
  truncateLength : Nat
  deriving Repr, DecidableEq

/-- `_normalizeConsoleLogFilters` (stagehand-service.js lines 140-156):
defaults error/warning/info to true and trace to false, lowercases the
string filters, and defaults `truncateLength` to 500 (`|| 500`, so a
falsy 0 also becomes 500). -/
def normalizeConsoleLogFilters (f : RawConsoleFilters) : ConsoleFilters :=
  { levels :=
      { error := ((f.levels.bind (·.error)).getD true)
        warning := ((f.levels.bind (·.warning)).getD true)
        info := ((f.levels.bind (·.info)).getD true)
        trace := ((f.levels.bind (·.trace)).getD false) }
    excludeStringFilters := (f.excludeStringFilters.getD []).map jsLower
    includeStringFilters := (f.includeStringFilters.getD []).map jsLower
    startTime := f.startTime
    endTime := f.endTime
    truncateLength :=
      match f.truncateLength with
      | none => 500
      | some n => if n = 0 then 500 else n }

/-- Normalized per-class booleans for network status filtering
(`statusCodes` after `_normalizeLogFilters`, lines 221-227). -/
structure StatusCodes where
  info : Bool
  success : Bool
  redirect : Bool
  clientError : Bool
  serverError : Bool
  deriving Repr, DecidableEq

/-- Raw `statusCodes`, every field possibly absent. -/
structure RawStatusCodes where
  info : Option Bool
  success : Option Bool
  redirect : Option Bool
  clientError : Option Bool
  serverError : Option Bool
  deriving Repr, DecidableEq

/-- Raw network filter spec as accepted by `getNetworkLogs`. -/
structure RawNetworkFilters where
  statusCodes : Option RawStatusCodes
  includeHeaders : Option Bool
  includeBody : Option Bool
  includeQueryParams : Option Bool
  excludeStringFilters : Option (List String)
  includeStringFilters : Option (List String)
  startTime : Option Int
  endTime : Option Int
  truncateLength : Option Nat
  deriving Repr, DecidableEq

/-- Normalized network filter spec (result of `_normalizeLogFilters`). -/
structure NetworkFilters where
  statusCodes : StatusCodes
  includeHeaders : Bool
  includeBody : Bool
  includeQueryParams : Bool
  excludeStringFilters : List String
  includeStringFilters : List String
  startTime : Option Int
  endTime : Option Int
  truncateLength : Nat
  deriving Repr, DecidableEq

/-- `_normalizeLogFilters` (stagehand-service.js lines 219-239): all
status classes default to true, `includeHeaders` to false, `includeBody`
and `includeQueryParams` to true, `truncateLength` to 5000. -/
def normalizeLogFilters (f : RawNetworkFilters) : NetworkFilters :=
  { statusCodes :=
      { info := ((f.statusCodes.bind (·.info)).getD true)
        success := ((f.statusCodes.bind (·.success)).getD true)
        redirect := ((f.statusCodes.bind (·.redirect)).getD true)
        clientError := ((f.statusCodes.bind (·.clientError)).getD true)
        serverError := ((f.statusCodes.bind (·.serverError)).getD true) }
    includeHeaders := f.includeHeaders.getD false
    includeBody := f.includeBody.getD true
    includeQueryParams := f.includeQueryParams.getD true
    excludeStringFilters := (f.excludeStringFilters.getD []).map jsLower
    includeStringFilters := (f.includeStringFilters.getD []).map jsLower
    startTime := f.startTime
    endTime := f.endTime
    truncateLength :=
      match f.truncateLength with
      | none => 5000
      | some n => if n = 0 then 5000 else n }

/-! ## Filtering stages -/

/-- The time-range stage, shared verbatim by the console filter
(lines 168-169) and the network filter (lines 251-252):
`if (startTime && ts < startTime) return false;
 if (endTime && ts > endTime) return false;`. -/
def timePass (startTime endTime : Option Int) (ts : Int) : Bool :=
  (match startTime with
   | some s => !decide (ts < s)
   | none => true) &&
  (match endTime with
   | some e => !decide (ts > e)
   | none => true)

/-- The shared string-filter stage (console lines 187-197, network lines
274-285): every exclude filter is tested first and any hit drops the
entry; then, when the include list is non-empty, the entry passes iff
some include filter hits; an empty include list lets the entry through. -/
def stringFiltersPass (excludeFilters includeFilters : List String)
    (content : String) : Bool :=
  if excludeFilters.any (fun f => strIncludes content f) then false
  else if includeFilters.length > 0 then
    includeFilters.any (fun f => strIncludes content f)
  else true

/-- The console level stage (`typeMatch`, lines 171-176). Both `info`
and `log` entries are gated by the `info` boolean. -/
def consoleTypeMatch (levels : ConsoleLevels) (t : String) : Bool :=
  (t == "error" && levels.error) ||
  (t == "warning" && levels.warning) ||
  ((t == "info" || t == "log") && levels.info) ||
  (t == "trace" && levels.trace)

/-- The searchable content of a console entry (lines 179-185): lowercase
message, path, type, stack trace and stringified args, space-joined,
with missing fields contributing the empty string. -/
def consoleSearchable (log : ConsoleLogEntry) : String :=
  String.intercalate " "
    ([lowerOrEmpty log.message,
      lowerOrEmpty log.path,
      jsLower log.type,
      lowerOrEmpty log.stackTrace] ++
     (log.args.getD []).map jsLower)

/-- The full console filter predicate (the `.filter` callback of
`getConsoleLogs`, lines 165-198): time range, then level, then string
filters, with JS early returns mirrored by short-circuit `&&`. -/
def consoleLogPasses (f : ConsoleFilters) (log : ConsoleLogEntry) : Bool :=
  timePass f.startTime f.endTime log.timestamp &&
  consoleTypeMatch f.levels log.type &&
  stringFiltersPass f.excludeStringFilters f.includeStringFilters
    (consoleSearchable log)

/-- The network status stage (`statusMatch`, lines 254-261): five closed
integer ranges, each gated by its class boolean. -/
def statusMatch (sc : StatusCodes) (status : Int) : Bool :=
  (decide (status ≥ 100) && decide (status ≤ 199) && sc.info) ||
  (decide (status ≥ 200) && decide (status ≤ 299) && sc.success) ||
  (decide (status ≥ 300) && decide (status ≤ 399) && sc.redirect) ||
  (decide (status ≥ 400) && decide (status ≤ 499) && sc.clientError) ||
  (decide (status ≥ 500) && decide (status ≤ 599) && sc.serverError)

/-- Model of `JSON.stringify` on a headers object (plain string-valued
mapping); quote escaping is irrelevant to the claims and omitted. -/
def jsonStringifyHeaders (hs : List (String × String)) : String :=
  "\x7b" ++
    String.intercalate ","
      (hs.map (fun p => "\"" ++ p.1 ++ "\":\"" ++ p.2 ++ "\"")) ++
  "\x7d"

/-- `log.request?.body ? String(log.request.body).toLowerCase() : ""`:
a missing or empty (falsy) body contributes the empty string. -/
def bodySearchText : Option String → String
  | none => ""
  | some b => if b.isEmpty then "" else jsLower b

/-- The searchable content of a network entry (lines 265-272). -/
def networkSearchable (log : NetworkLogEntry) : String :=
  String.intercalate " "
    [jsLower log.url,
     jsLower log.method,
     jsLower (jsonStringifyHeaders log.request.headers),
     jsLower (jsonStringifyHeaders log.response.headers),
     bodySearchText log.request.body,
     bodySearchText log.response.body]

/-- The full network filter predicate (the `.filter` callback of
`getNetworkLogs`, lines 248-286): time range, then status class, then
string filters. -/
def networkLogPasses (f : NetworkFilters) (log : NetworkLogEntry) : Bool :=
  timePass f.startTime f.endTime log.timestamp &&
  statusMatch f.statusCodes log.status &&
  stringFiltersPass f.excludeStringFilters f.includeStringFilters
    (networkSearchable log)

/-! ## Output projection -/

/-- The projected console entry returned by `_formatConsoleLog`
(lines 209-216). -/
structure FormattedConsoleLog where
  type : String
  timestamp : Int
  message : Option String
  path : Option String
  stackTrace : Option String
  args : Option (List String)
  deriving Repr, DecidableEq

/-- `_formatConsoleLog` (stagehand-service.js lines 202-217): truncates
message, stack trace and each arg; copies type, timestamp and path. -/
def formatConsoleLog (f : ConsoleFilters) (log : ConsoleLogEntry) :
    FormattedConsoleLog :=
  { type := log.type
    timestamp := log.timestamp
    message := optTruncate log.message f.truncateLength
    path := log.path
    stackTrace := optTruncate log.stackTrace f.truncateLength
    args := log.args.map (fun as => as.map (fun a => strTruncate a f.truncateLength)) }

/-- `request` part of the projected network entry (lines 307-313): a
field controlled by an `include*` flag is absent (`none`) when the flag
is false; the body can also be `null` itself, hence `Option (Option _)`. -/
structure FormattedNetworkRequest where
  method : String
  url : String
  queryParams : Option String
  headers : Option (List (String × String))
  body : Option (Option String)
  deriving Repr, DecidableEq

/-- `response` part of the projected network entry (lines 314-318). -/
structure FormattedNetworkResponse where
  status : Int
  headers : Option (List (String × String))
  body : Option (Option String)
  deriving Repr, DecidableEq

/-- The projected network entry returned by `_formatNetworkLog`
(lines 302-319). -/
structure FormattedNetworkLog where
  url : String
  method : String
  status : Int
  timestamp : Int
  request : FormattedNetworkRequest
  response : FormattedNetworkResponse
  deriving Repr, DecidableEq

/-- `_formatNetworkLog` (stagehand-service.js lines 294-320). -/
def formatNetworkLog (f : NetworkFilters) (log : NetworkLogEntry) :
    FormattedNetworkLog :=
  { url := log.url
    method := log.method
    status := log.status
    timestamp := log.timestamp
    request :=
      { method := log.method
        url := log.url
        queryParams := if f.includeQueryParams then some log.request.queryParams else none
        headers := if f.includeHeaders then some log.request.headers else none
        body := if f.includeBody then some (optTruncate log.request.body f.truncateLength) else none }
    response :=
      { status := log.status
        headers := if f.includeHeaders then some log.response.headers else none
        body := if f.includeBody then some (optTruncate log.response.body f.truncateLength) else none } }

/-! ## Service state: the two session-keyed maps

`this.instances : Map(sessionId -> Stagehand)` and
`this.logs : Map(sessionId -> SessionLogs)` are modelled as association
lists keyed by session id, with JS `Map` get/set/delete semantics. -/

/-- Association-list model of a JS `Map` with string keys. -/
def SMap (α : Type) : Type := List (String × α)

/-- `m.get(k)` (also the truthiness test `m.has(k)`). -/
def SMap.get {α : Type} (m : SMap α) (k : String) : Option α :=
  match m with
  | [] => none
  | (k', v) :: rest => if k' = k then some v else SMap.get rest k

/-- `m.set(k, v)`: replaces the binding when present, appends otherwise. -/
def SMap.set {α : Type} (m : SMap α) (k : String) (v : α) : SMap α :=
  match m with
  | [] => [(k, v)]
  | (k', v') :: rest =>
      if k' = k then (k', v) :: rest else (k', v') :: SMap.set rest k v

/-- `m.delete(k)`. -/
def SMap.del {α : Type} (m : SMap α) (k : String) : SMap α :=
  match m with
  | [] => []
  | (k', v') :: rest =>
      if k' = k then SMap.del rest k else (k', v') :: SMap.del rest k

/-- The `StagehandService` instance state (constructor, lines 4-7). The
browser-control handle type is abstract (`H`); the service never
inspects a handle, it only caches and returns it. -/
structure ServiceState (H : Type) where
  instances : SMap H
  logs : SMap SessionLogs

/-! ## Operations of the service -/

/-- `getLogs(sessionId)` (lines 127-129): raw accessor. -/
def getLogs {H : Type} (st : ServiceState H) (sessionId : String) :
    Option SessionLogs :=
  st.logs.get sessionId

/-- `getInstance(sessionId)` (lines 123-125). -/
def getInstance {H : Type} (st : ServiceState H) (sessionId : String) :
    Option H :=
  st.instances.get sessionId

/-- `getConsoleLogs(sessionId, filters)` (lines 158-200): throws
`"Session not initialized"` when no `SessionLogs` record exists,
otherwise filters and projects the stored console entries. The thrown
error is modelled as `Except.error` carrying the message. -/
def getConsoleLogs {H : Type} (st : ServiceState H) (sessionId : String)
    (filters : RawConsoleFilters) :
    Except String (List FormattedConsoleLog) :=
  match getLogs st sessionId with
  | none => Except.error "Session not initialized"
  | some logs =>
      let nf := normalizeConsoleLogFilters filters
      Except.ok ((logs.console.filter (consoleLogPasses nf)).map
        (formatConsoleLog nf))

/-- `getNetworkLogs(sessionId, filters)` (lines 241-292). -/
def getNetworkLogs {H : Type} (st : ServiceState H) (sessionId : String)
    (filters : RawNetworkFilters) :
    Except String (List FormattedNetworkLog) :=
  match getLogs st sessionId with
  | none => Except.error "Session not initialized"
  | some logs =>
      let nf := normalizeLogFilters filters
      Except.ok ((logs.network.filter (networkLogPasses nf)).map
        (formatNetworkLog nf))

/-- `cleanupInstance(sessionId)` (lines 131-138): when a cached handle
exists, closes the browser resource (external I/O, no model state) and
deletes both the handle and the `SessionLogs` record; otherwise the
state is untouched. -/
def cleanupInstance {H : Type} (st : ServiceState H) (sessionId : String) :
    ServiceState H :=
  match st.instances.get sessionId with
  | some _ =>
      { st with
        instances := st.instances.del sessionId
        logs := st.logs.del sessionId }
  | none => st

/-- `getOrCreateInstance(sessionId, options)` (lines 9-40): returns the
cached handle unchanged when present; otherwise creates a fresh empty
`SessionLogs` record, wires monitoring (event registration on the
external handle, not model state) and caches the handle. The handle
produced by `new Stagehand(config)` / `init` is external input, passed
in as `newHandle`. -/
def getOrCreateInstance {H : Type} (st : ServiceState H)
    (sessionId : String) (newHandle : H) : H × ServiceState H :=
  match st.instances.get sessionId with
  | some h => (h, st)
  | none =>
      (newHandle,
       { st with
         logs := st.logs.set sessionId SessionLogs.empty
         instances := st.instances.set sessionId newHandle })

/-! ## Event ingestion: the `response` handler of `_setupMonitoring`

The handler (stagehand-service.js lines 56-90) receives a transport
response object. Its calls into the transport (`response.url()`,
`request.method()`, header reads, `request.postData()`, and the body
read `response.json()` / `response.text()`) are external inputs; a
`RawResponseEvent` packages their results. The two body-read branches
both yield a string after stringification, and each can fail, so the
read is a single `Except`. The ingestion-time clock reading
(`new Date().toISOString()`) is the `now` field. -/

/-- External inputs consumed by the `response` handler for one event. -/
structure RawResponseEvent where
  url : String
  method : String
  status : Int
  now : Int
  requestHeaders : List (String × String)
  postData : Option String
  responseHeaders : List (String × String)
  bodyRead : Except String String
  deriving Repr

/-- `await request.postData() || null`: a missing or empty (falsy)
post body is stored as `null`. -/
def jsOrNull : Option String → Option String
  | none => none
  | some s => if s.isEmpty then none else some s

/-- Model of `new URL(url).searchParams.toString()`: the text between
the first `?` and the following `#`, empty when there is no query. -/
def urlSearchParams (url : String) : String :=
  match url.splitOn "?" with
  | [] => ""
  | [_] => ""
  | _ :: rest => ((String.intercalate "?" rest).splitOn "#").headD ""

/-- The inner `try`/`catch` around the body read (lines 75-84): a
successful read stores the (stringified) body, a failure stores the
sentinel `"Could not parse response body"` instead of propagating. -/
def bodyReadResult : Except String String → Option String
  | Except.ok b => some b
  | Except.error _ => some "Could not parse response body"

/-- The `networkLog` object built by the handler (lines 59-73), with
the response body filled in per `bodyReadResult`. -/
def respEntry (ev : RawResponseEvent) (body : Option String) :
    NetworkLogEntry :=
  { url := ev.url
    method := ev.method
    status := ev.status
    timestamp := ev.now
    request :=
      { headers := ev.requestHeaders
        body := jsOrNull ev.postData
        queryParams := urlSearchParams ev.url }
    response :=
      { headers := ev.responseHeaders
        body := body } }

/-- The complete `response` handler body (lines 56-90): builds the
entry, resolves the body (degrading to the sentinel on read failure)
and appends it to the session's `network` sequence. The handler is
total: no failure of the body read escapes it. -/
def ingestResponse (logs : SessionLogs) (ev : RawResponseEvent) :
    SessionLogs :=
  { logs with
    network := logs.network ++ [respEntry ev (bodyReadResult ev.bodyRead)] }

/-! ## State-passing views of the query methods

`getConsoleLogs` / `getNetworkLogs` are methods on the service object;
threading `this` explicitly, a method is `state → result × state`. Their
bodies (lines 158-200 and 241-292) contain no assignment to `this`, no
`Map` mutation and no write to any stored entry — they read
`this.logs.get(...)` and build the result with `Array.filter`/`.map`,
which allocate fresh arrays, and the formatters build fresh objects — so
the translated state component is the input state. -/

/-- `getConsoleLogs` as a state transformer. -/
def getConsoleLogsOp {H : Type} (st : ServiceState H) (sessionId : String)
    (filters : RawConsoleFilters) :
    Except String (List FormattedConsoleLog) × ServiceState H :=
  (getConsoleLogs st sessionId filters, st)

/-- `getNetworkLogs` as a state transformer. -/
def getNetworkLogsOp {H : Type} (st : ServiceState H) (sessionId : String)
    (filters : RawNetworkFilters) :
    Except String (List FormattedNetworkLog) × ServiceState H :=
  (getNetworkLogs st sessionId filters, st)

/-! ## Association-list map lemmas (shared helpers) -/

theorem SMap.get_del {α : Type} (m : SMap α) (k k' : String) :
    (m.del k).get k' = if k' = k then none else m.get k' := by
  induction m with
  | nil => simp [SMap.del, SMap.get]
  | cons p rest ih =>
      obtain ⟨k₀, v₀⟩ := p
      simp only [SMap.del]
      by_cases h₀ : k₀ = k
      · rw [if_pos h₀, ih]
        subst h₀
        by_cases h₁ : k' = k₀
        · rw [if_pos h₁, if_pos h₁]
        · rw [if_neg h₁, if_neg h₁]
          simp only [SMap.get]
          rw [if_neg (fun h => h₁ h.symm)]
      · rw [if_neg h₀]
        simp only [SMap.get]
        by_cases h₁ : k₀ = k'
        · rw [if_pos h₁, if_pos h₁]
          rw [if_neg (fun h => h₀ (h₁.trans h))]
        · rw [if_neg h₁, if_neg h₁, ih]

theorem SMap.get_set {α : Type} (m : SMap α) (k k' : String) (v : α) :
    (m.set k v).get k' = if k' = k then some v else m.get k' := by
  induction m with
  | nil =>
      simp only [SMap.set, SMap.get]
      by_cases h : k' = k
      · rw [if_pos h.symm, if_pos h]
      · rw [if_neg (fun h' => h h'.symm), if_neg h]
  | cons p rest ih =>
      obtain ⟨k₀, v₀⟩ := p
      simp only [SMap.set]
      by_cases h₀ : k₀ = k
      · rw [if_pos h₀]
        subst h₀
        simp only [SMap.get]
        by_cases h₁ : k₀ = k'
        · rw [if_pos h₁, if_pos h₁.symm]
        · rw [if_neg h₁, if_neg h₁, if_neg (fun h => h₁ h.symm)]
      · rw [if_neg h₀]
        simp only [SMap.get]
        by_cases h₁ : k₀ = k'
        · rw [if_pos h₁, if_pos h₁]
          rw [if_neg (fun h => h₀ (h₁.trans h))]
        · rw [if_neg h₁, if_neg h₁, ih]

/-! ## Status classes (one name per disjunct of `statusMatch`) -/

/-- The five status classes distinguished by the network filter. -/
inductive StatusClass where
  | info
  | success
  | redirect
  | clientError
  | serverError
  deriving Repr, DecidableEq

instance : Fintype StatusClass :=
  ⟨⟨{StatusClass.info, StatusClass.success, StatusClass.redirect,
     StatusClass.clientError, StatusClass.serverError}, by decide⟩,
   fun c => by cases c <;> decide⟩

/-- The closed integer range of one class, exactly the range tests of
the corresponding `statusMatch` disjunct (lines 256-260). -/
def statusInClass (c : StatusClass) (s : Int) : Bool :=
  match c with
  | StatusClass.info => decide (s ≥ 100) && decide (s ≤ 199)
  | StatusClass.success => decide (s ≥ 200) && decide (s ≤ 299)
  | StatusClass.redirect => decide (s ≥ 300) && decide (s ≤ 399)
  | StatusClass.clientError => decide (s ≥ 400) && decide (s ≤ 499)
  | StatusClass.serverError => decide (s ≥ 500) && decide (s ≤ 599)

/-- The boolean flag a filter spec assigns to one class. -/
def StatusCodes.flag (sc : StatusCodes) : StatusClass → Bool
  | StatusClass.info => sc.info
  | StatusClass.success => sc.success
  | StatusClass.redirect => sc.redirect
  | StatusClass.clientError => sc.clientError
  | StatusClass.serverError => sc.serverError

/-- Helper: when a status lies in the range of class `c`, the whole
`statusMatch` disjunction collapses to the flag of `c`. -/
theorem statusMatch_eq_flag (sc : StatusCodes) (c : StatusClass) (s : Int)
    (h : statusInClass c s = true) : statusMatch sc s = sc.flag c := by
  cases c <;>
    simp only [statusInClass, Bool.and_eq_true, decide_eq_true_eq] at h <;>
    obtain ⟨ha, hb⟩ := h <;>
    simp only [statusMatch, StatusCodes.flag]
  · rw [decide_eq_true ha, decide_eq_true hb,
      decide_eq_false (show ¬s ≥ 200 by omega),
      decide_eq_false (show ¬s ≥ 300 by omega),
      decide_eq_false (show ¬s ≥ 400 by omega),
      decide_eq_false (show ¬s ≥ 500 by omega)]
    simp
  · rw [decide_eq_true ha, decide_eq_true hb,
      decide_eq_false (show ¬s ≤ 199 by omega),
      decide_eq_false (show ¬s ≥ 300 by omega),
      decide_eq_false (show ¬s ≥ 400 by omega),
      decide_eq_false (show ¬s ≥ 500 by omega)]
    simp
  · rw [decide_eq_true ha, decide_eq_true hb,
      decide_eq_false (show ¬s ≤ 199 by omega),
      decide_eq_false (show ¬s ≤ 299 by omega),
      decide_eq_false (show ¬s ≥ 400 by omega),
      decide_eq_false (show ¬s ≥ 500 by omega)]
    simp
  · rw [decide_eq_true ha, decide_eq_true hb,
      decide_eq_false (show ¬s ≤ 199 by omega),
      decide_eq_false (show ¬s ≤ 299 by omega),
      decide_eq_false (show ¬s ≤ 399 by omega),
      decide_eq_false (show ¬s ≥ 500 by omega)]
    simp
  · rw [decide_eq_true ha, decide_eq_true hb,
      decide_eq_false (show ¬s ≤ 199 by omega),
      decide_eq_false (show ¬s ≤ 299 by omega),
      decide_eq_false (show ¬s ≤ 399 by omega),
      decide_eq_false (show ¬s ≤ 499 by omega)]
    simp

/-! ## Claim theorems -/

/-- C2: every string field subject to truncation (console message,
stack trace, stringified arg; network body) with a positive limit `L`
is returned unchanged when its length is at most `L`, and otherwise is
cut to exactly its first `L` characters followed by the literal suffix
`... (truncated)`; the console and network formatters apply exactly
this truncation to those fields. -/
theorem truncation_boundary (s : String) (L : Nat) (hL : 0 < L) :
    (s.length ≤ L → strTruncate s L = s) ∧
    (L < s.length → strTruncate s L = s.take L ++ "... (truncated)") ∧
    (∀ (f : ConsoleFilters) (log : ConsoleLogEntry),
      (formatConsoleLog f log).message = optTruncate log.message f.truncateLength ∧
      (formatConsoleLog f log).stackTrace = optTruncate log.stackTrace f.truncateLength ∧
      (formatConsoleLog f log).args =
        log.args.map (fun as => as.map (fun a => strTruncate a f.truncateLength))) ∧
    (∀ (f : NetworkFilters) (log : NetworkLogEntry), f.includeBody = true →
      (formatNetworkLog f log).request.body =
        some (optTruncate log.request.body f.truncateLength) ∧
      (formatNetworkLog f log).response.body =
        some (optTruncate log.response.body f.truncateLength)) ∧
    (∀ (t : String), optTruncate (some t) L = some (strTruncate t L)) := by
  refine ⟨?_, ?_, ?_, ?_, ?_⟩
  · intro h
    by_cases he : s.isEmpty
    · simp [strTruncate, he]
    · simp [strTruncate, he, h]
  · intro h
    have he : ¬s.isEmpty := by
      intro he
      rw [String.isEmpty_iff] at he
      subst he
      simp at h
    simp [strTruncate, he, Nat.not_le.mpr h]
  · intro f log
    exact ⟨rfl, rfl, rfl⟩
  · intro f log hb
    constructor <;> simp [formatNetworkLog, hb]
  · intro t
    rfl

/-- Witness for C2 at `s = "abcdef"`, `L = 3`. -/
theorem truncation_boundary_witness :
    strTruncate "abcdef" 3 = "abc... (truncated)" ∧
    strTruncate "abc" 3 = "abc" := by
  have h := truncation_boundary "abcdef" 3 (by decide)
  have h' := truncation_boundary "abc" 3 (by decide)
  exact ⟨(h.2.1 (by decide)).trans (by decide), h'.1 (by decide)⟩

/-- C4: every status code in `[100, 599]` lies in the range of exactly
one of the five classes, and a network entry with such a status passes
status filtering exactly when the boolean flag of that unique class is
true. -/
theorem status_class_partition (s : Int) (h1 : 100 ≤ s) (h2 : s ≤ 599) :
    (∃! c : StatusClass, statusInClass c s = true) ∧
    (∀ (sc : StatusCodes) (c : StatusClass), statusInClass c s = true →
      statusMatch sc s = sc.flag c) := by
  constructor
  · have hband : s ≤ 199 ∨ (200 ≤ s ∧ s ≤ 299) ∨ (300 ≤ s ∧ s ≤ 399) ∨
        (400 ≤ s ∧ s ≤ 499) ∨ 500 ≤ s := by omega
    rcases hband with h | ⟨ha, hb⟩ | ⟨ha, hb⟩ | ⟨ha, hb⟩ | h
    · refine ⟨StatusClass.info, ?_, ?_⟩
      · simp only [statusInClass, Bool.and_eq_true, decide_eq_true_eq]
        omega
      · intro y hy
        cases y
        · rfl
        all_goals
          simp only [statusInClass, Bool.and_eq_true, decide_eq_true_eq] at hy
          omega
    · refine ⟨StatusClass.success, ?_, ?_⟩
      · simp only [statusInClass, Bool.and_eq_true, decide_eq_true_eq]
        omega
      · intro y hy
        cases y
        case success => rfl
        all_goals
          simp only [statusInClass, Bool.and_eq_true, decide_eq_true_eq] at hy
          omega
    · refine ⟨StatusClass.redirect, ?_, ?_⟩
      · simp only [statusInClass, Bool.and_eq_true, decide_eq_true_eq]
        omega
      · intro y hy
        cases y
        case redirect => rfl
        all_goals
          simp only [statusInClass, Bool.and_eq_true, decide_eq_true_eq] at hy
          omega
    · refine ⟨StatusClass.clientError, ?_, ?_⟩
      · simp only [statusInClass, Bool.and_eq_true, decide_eq_true_eq]
        omega
      · intro y hy
        cases y
        case clientError => rfl
        all_goals
          simp only [statusInClass, Bool.and_eq_true, decide_eq_true_eq] at hy
          omega
    · refine ⟨StatusClass.serverError, ?_, ?_⟩
      · simp only [statusInClass, Bool.and_eq_true, decide_eq_true_eq]
        omega
      · intro y hy
        cases y
        case serverError => rfl
        all_goals
          simp only [statusInClass, Bool.and_eq_true, decide_eq_true_eq] at hy
          omega
  · intro sc c hc
    exact statusMatch_eq_flag sc c s hc

/-- Witness for C4 at status 404: the unique class is `clientError`,
and filtering follows exactly that flag. -/
theorem status_class_partition_witness :
    statusInClass StatusClass.clientError 404 = true ∧
    statusMatch
      { info := true, success := true, redirect := true,
        clientError := false, serverError := true } 404 = false := by
  have h := status_class_partition 404 (by decide) (by decide)
  refine ⟨by decide, ?_⟩
  have := h.2
    { info := true, success := true, redirect := true,
      clientError := false, serverError := true }
    StatusClass.clientError (by decide)
  simpa [StatusCodes.flag] using this

/-- C6: the time-range stage shared by console and network queries is
inclusive at both ends: an entry is dropped exactly when its timestamp
is strictly before a supplied `startTime` or strictly after a supplied
`endTime`; a timestamp equal to either bound survives the stage, and a
dropped timestamp makes the whole entry predicate false for both
queries. -/
theorem time_range_inclusive (startT endT : Option Int) (ts : Int) :
    (timePass startT endT ts = false ↔
      (∃ s, startT = some s ∧ ts < s) ∨ (∃ e, endT = some e ∧ e < ts)) ∧
    (∀ e : Int, ts ≤ e → timePass (some ts) (some e) ts = true) ∧
    (∀ s : Int, s ≤ ts → timePass (some s) (some ts) ts = true) ∧
    (∀ (f : ConsoleFilters) (log : ConsoleLogEntry),
      f.startTime = startT → f.endTime = endT → log.timestamp = ts →
      timePass startT endT ts = false → consoleLogPasses f log = false) ∧
    (∀ (f : NetworkFilters) (log : NetworkLogEntry),
      f.startTime = startT → f.endTime = endT → log.timestamp = ts →
      timePass startT endT ts = false → networkLogPasses f log = false) := by
  refine ⟨?_, ?_, ?_, ?_, ?_⟩
  · cases startT <;> cases endT <;>
      simp [timePass, decide_eq_true_eq] <;> omega
  · intro e he
    simp [timePass, decide_eq_true_eq]
    omega
  · intro s hs
    simp [timePass, decide_eq_true_eq]
    omega
  · intro f log h1 h2 h3 hdrop
    rw [consoleLogPasses, h1, h2, h3, hdrop]
    rfl
  · intro f log h1 h2 h3 hdrop
    rw [networkLogPasses, h1, h2, h3, hdrop]
    rfl

/-- Witness for C6 at `startTime = 10`, `endTime = 20`: timestamps 10
and 20 pass, timestamp 9 is dropped. -/
theorem time_range_inclusive_witness :
    timePass (some 10) (some 20) 10 = true ∧
    timePass (some 10) (some 20) 20 = true ∧
    timePass (some 10) (some 20) 9 = false := by
  refine ⟨?_, ?_, ?_⟩
  · exact (time_range_inclusive (some 10) (some 20) 10).2.1 20 (by decide)
  · exact (time_range_inclusive (some 10) (some 20) 20).2.2.1 10 (by decide)
  · exact ((time_range_inclusive (some 10) (some 20) 9).1).mpr
      (Or.inl ⟨10, rfl, by decide⟩)

/-- C3: string filtering evaluates excludes before includes. Any
exclude hit in the searchable content drops the entry (also at the full
console/network predicate level, even when an include also matches);
with no exclude hit and a non-empty include list the stage passes iff
some include substring occurs; with no exclude hit and an empty include
list the stage passes. -/
theorem exclude_precedes_include (exc inc : List String) (content : String) :
    ((∃ e ∈ exc, strIncludes content e = true) →
      stringFiltersPass exc inc content = false) ∧
    ((∀ e ∈ exc, ¬strIncludes content e = true) → inc ≠ [] →
      (stringFiltersPass exc inc content = true ↔
        ∃ i ∈ inc, strIncludes content i = true)) ∧
    ((∀ e ∈ exc, ¬strIncludes content e = true) → inc = [] →
      stringFiltersPass exc inc content = true) ∧
    (∀ (f : ConsoleFilters) (log : ConsoleLogEntry),
      f.excludeStringFilters = exc → f.includeStringFilters = inc →
      consoleSearchable log = content →
      (∃ e ∈ exc, strIncludes content e = true) →
      consoleLogPasses f log = false) ∧
    (∀ (f : NetworkFilters) (log : NetworkLogEntry),
      f.excludeStringFilters = exc → f.includeStringFilters = inc →
      networkSearchable log = content →
      (∃ e ∈ exc, strIncludes content e = true) →
      networkLogPasses f log = false) := by
  have hdrop : (∃ e ∈ exc, strIncludes content e = true) →
      stringFiltersPass exc inc content = false := by
    intro h
    have hany : exc.any (fun f => strIncludes content f) = true := by
      rw [List.any_eq_true]
      obtain ⟨e, he, hinc⟩ := h
      exact ⟨e, he, hinc⟩
    simp [stringFiltersPass, hany]
  refine ⟨hdrop, ?_, ?_, ?_, ?_⟩
  · intro hno hne
    have hany : exc.any (fun f => strIncludes content f) = false := by
      rw [Bool.eq_false_iff]
      intro hc
      rw [List.any_eq_true] at hc
      obtain ⟨e, he, hinc⟩ := hc
      exact hno e he hinc
    have hlen : inc.length > 0 := List.length_pos.mpr hne
    simp [stringFiltersPass, hany, hlen, List.any_eq_true]
  · intro hno hnil
    have hany : exc.any (fun f => strIncludes content f) = false := by
      rw [Bool.eq_false_iff]
      intro hc
      rw [List.any_eq_true] at hc
      obtain ⟨e, he, hinc⟩ := hc
      exact hno e he hinc
    subst hnil
    simp [stringFiltersPass, hany]
  · intro f log h1 h2 h3 hex
    rw [consoleLogPasses, h1, h2, h3, hdrop hex]
    simp
  · intro f log h1 h2 h3 hex
    rw [networkLogPasses, h1, h2, h3, hdrop hex]
    simp

/-- Witness for C3: content `"warn: deprecated api"` with exclude
`["deprecated"]` and include `["warn"]` is dropped, while with exclude
`["zzz"]` it passes via the include hit. -/
theorem exclude_precedes_include_witness :
    stringFiltersPass ["deprecated"] ["warn"] "warn: deprecated api" = false ∧
    stringFiltersPass ["zzz"] ["warn"] "warn: deprecated api" = true := by
  constructor
  · exact (exclude_precedes_include ["deprecated"] ["warn"]
      "warn: deprecated api").1 ⟨"deprecated", by decide, by decide⟩
  · exact ((exclude_precedes_include ["zzz"] ["warn"]
      "warn: deprecated api").2.1 (by decide) (by decide)).mpr
      ⟨"warn", by decide, by decide⟩

/-- C5: console level filtering follows the mapped category boolean:
`error`/`warning`/`trace` entries follow their own flags, `info` and
`log` entries both follow the `info` flag; with
`levels = {error := true, warning := false, info := false, trace := false}`
and no other filters, a query keeps exactly the `error`-typed entries
(in particular a `log`-typed entry is kept only when `info` is true). -/
theorem level_filter_correct (lv : ConsoleLevels) :
    consoleTypeMatch lv "error" = lv.error ∧
    consoleTypeMatch lv "warning" = lv.warning ∧
    consoleTypeMatch lv "info" = lv.info ∧
    consoleTypeMatch lv "log" = lv.info ∧
    consoleTypeMatch lv "trace" = lv.trace ∧
    (∀ (f : ConsoleFilters) (logs : List ConsoleLogEntry),
      f.levels = { error := true, warning := false, info := false, trace := false } →
      f.startTime = none → f.endTime = none →
      f.excludeStringFilters = [] → f.includeStringFilters = [] →
      logs.filter (consoleLogPasses f) = logs.filter (fun l => l.type == "error")) := by
  refine ⟨?_, ?_, ?_, ?_, ?_, ?_⟩
  · simp [consoleTypeMatch]
  · simp [consoleTypeMatch]
  · simp [consoleTypeMatch]
  · simp [consoleTypeMatch]
  · simp [consoleTypeMatch]
  · intro f logs hlv hs he hex hinc
    apply List.filter_congr
    intro l _
    rw [consoleLogPasses, hlv, hs, he, hex, hinc]
    simp [timePass, stringFiltersPass, consoleTypeMatch]

/-- Witness for C5: an error entry passes and a `log` entry fails the
error-only level filter. -/
theorem level_filter_correct_witness :
    consoleTypeMatch
      { error := true, warning := false, info := false, trace := false }
      "log" = false ∧
    [({ type := "error", message := some "boom", path := some "p",
        timestamp := 0, stackTrace := none, args := none } : ConsoleLogEntry),
     { type := "log", message := some "hi", path := some "p",
       timestamp := 1, stackTrace := none, args := none }].filter
      (consoleLogPasses
        { levels := { error := true, warning := false, info := false, trace := false },
          excludeStringFilters := [], includeStringFilters := [],
          startTime := none, endTime := none, truncateLength := 500 }) =
    [{ type := "error", message := some "boom", path := some "p",
       timestamp := 0, stackTrace := none, args := none }] := by
  constructor
  · exact (level_filter_correct
      { error := true, warning := false, info := false, trace := false }).2.2.2.1
  · rw [(level_filter_correct
      { error := true, warning := false, info := false, trace := false }).2.2.2.2.2
      _ _ rfl rfl rfl rfl rfl]
    rfl

/-- The raw filter spec for a call with `filters = {}` (every field
absent, all defaults apply). -/
def rawConsoleDefaults : RawConsoleFilters :=
  { levels := none, excludeStringFilters := none, includeStringFilters := none,
    startTime := none, endTime := none, truncateLength := none }

/-- The raw network filter spec for a call with `filters = {}`. -/
def rawNetworkDefaults : RawNetworkFilters :=
  { statusCodes := none, includeHeaders := none, includeBody := none,
    includeQueryParams := none, excludeStringFilters := none,
    includeStringFilters := none, startTime := none, endTime := none,
    truncateLength := none }

/-- C1: `getConsoleLogs` and `getNetworkLogs` throw
`"Session not initialized"` exactly when no `SessionLogs` record exists
for the session; when a record exists with an empty buffer, each query
returns the empty sequence instead of throwing. -/
theorem session_not_initialized_iff {H : Type} (st : ServiceState H)
    (S : String) (cf : RawConsoleFilters) (nf : RawNetworkFilters) :
    (getConsoleLogs st S cf = Except.error "Session not initialized" ↔
      getLogs st S = none) ∧
    (getNetworkLogs st S nf = Except.error "Session not initialized" ↔
      getLogs st S = none) ∧
    (∀ rec, getLogs st S = some rec → rec.console = [] →
      getConsoleLogs st S cf = Except.ok []) ∧
    (∀ rec, getLogs st S = some rec → rec.network = [] →
      getNetworkLogs st S nf = Except.ok []) := by
  cases h : getLogs st S with
  | none =>
      refine ⟨?_, ?_, ?_, ?_⟩
      · simp [getConsoleLogs, h]
      · simp [getNetworkLogs, h]
      · intro rec hrec
        exact absurd hrec (by simp)
      · intro rec hrec
        exact absurd hrec (by simp)
  | some logs =>
      refine ⟨?_, ?_, ?_, ?_⟩
      · simp [getConsoleLogs, h]
      · simp [getNetworkLogs, h]
      · intro rec hrec hempty
        obtain rfl : logs = rec := by injection hrec
        simp [getConsoleLogs, h, hempty]
      · intro rec hrec hempty
        obtain rfl : logs = rec := by injection hrec
        simp [getNetworkLogs, h, hempty]

/-- Service state used to witness C1: session `"s"` initialized with
empty buffers, session `"t"` never initialized. -/
def stWitness : ServiceState Nat :=
  { instances := [("s", 7)], logs := [("s", SessionLogs.empty)] }

/-- Witness for C1: the initialized-but-empty session answers `ok []`,
the unknown session throws. -/
theorem session_not_initialized_iff_witness :
    getConsoleLogs stWitness "s" rawConsoleDefaults = Except.ok [] ∧
    getNetworkLogs stWitness "s" rawNetworkDefaults = Except.ok [] ∧
    getConsoleLogs stWitness "t" rawConsoleDefaults =
      Except.error "Session not initialized" := by
  refine ⟨?_, ?_, ?_⟩
  · exact (session_not_initialized_iff stWitness "s" rawConsoleDefaults
      rawNetworkDefaults).2.2.1 SessionLogs.empty (by decide) rfl
  · exact (session_not_initialized_iff stWitness "s" rawConsoleDefaults
      rawNetworkDefaults).2.2.2 SessionLogs.empty (by decide) rfl
  · exact (session_not_initialized_iff stWitness "t" rawConsoleDefaults
      rawNetworkDefaults).1.mpr (by decide)

/-- C7: the query methods are read-only: threading the service state
through them returns it unchanged, the stored record (every bucket
included) is the same before and after, and re-running the query on the
resulting state reproduces the same output. -/
theorem queries_leave_state_unchanged {H : Type} (st : ServiceState H)
    (S : String) (cf : RawConsoleFilters) (nf : RawNetworkFilters) :
    (getConsoleLogsOp st S cf).2 = st ∧
    (getNetworkLogsOp st S nf).2 = st ∧
    getLogs (getConsoleLogsOp st S cf).2 S = getLogs st S ∧
    getLogs (getNetworkLogsOp st S nf).2 S = getLogs st S ∧
    getConsoleLogs (getConsoleLogsOp st S cf).2 S cf =
      (getConsoleLogsOp st S cf).1 ∧
    getNetworkLogs (getNetworkLogsOp st S nf).2 S nf =
      (getNetworkLogsOp st S nf).1 := by
  exact ⟨rfl, rfl, rfl, rfl, rfl, rfl⟩

/-- C8: for an active session, `cleanupInstance` removes the cached
handle and the `SessionLogs` record together (afterwards
`getOrCreateInstance` hands back the fresh handle rather than a cached
one, and `getConsoleLogs` throws); for a never-initialized session it
is a no-op; and it preserves the invariant that a handle and a record
exist for exactly the same identifiers. -/
theorem cleanup_lifecycle {H : Type} (st : ServiceState H) (S : String) :
    (∀ h : H, getInstance st S = some h →
      getInstance (cleanupInstance st S) S = none ∧
      getLogs (cleanupInstance st S) S = none ∧
      (∀ h2 : H, (getOrCreateInstance (cleanupInstance st S) S h2).1 = h2) ∧
      (∀ cf, getConsoleLogs (cleanupInstance st S) S cf =
        Except.error "Session not initialized")) ∧
    (getInstance st S = none → cleanupInstance st S = st) ∧
    ((∀ k, (getInstance st k).isSome = (getLogs st k).isSome) →
      ∀ k, (getInstance (cleanupInstance st S) k).isSome =
        (getLogs (cleanupInstance st S) k).isSome) := by
  refine ⟨?_, ?_, ?_⟩
  · intro h hh
    simp only [getInstance] at hh
    have hcl : cleanupInstance st S =
        { instances := st.instances.del S, logs := st.logs.del S } := by
      simp [cleanupInstance, hh]
    refine ⟨?_, ?_, ?_, ?_⟩
    · simp [getInstance, hcl, SMap.get_del]
    · simp [getLogs, hcl, SMap.get_del]
    · intro h2
      simp [getOrCreateInstance, hcl, SMap.get_del]
    · intro cf
      simp [getConsoleLogs, getLogs, hcl, SMap.get_del]
  · intro hnone
    simp only [getInstance] at hnone
    simp [cleanupInstance, hnone]
  · intro hinv k
    simp only [getInstance, getLogs] at hinv
    cases hI : st.instances.get S with
    | none => simpa [cleanupInstance, hI, getInstance, getLogs] using hinv k
    | some h =>
        simp only [cleanupInstance, hI, getInstance, getLogs, SMap.get_del]
        by_cases hk : k = S
        · simp [hk]
        · simp only [if_neg hk]
          exact hinv k

/-- Witness for C8 on `stWitness`: cleaning the active session `"s"`
drops handle and record and makes queries throw; cleaning the unknown
session `"t"` changes nothing. -/
theorem cleanup_lifecycle_witness :
    getInstance (cleanupInstance stWitness "s") "s" = (none : Option Nat) ∧
    getLogs (cleanupInstance stWitness "s") "s" = none ∧
    getConsoleLogs (cleanupInstance stWitness "s") "s" rawConsoleDefaults =
      Except.error "Session not initialized" ∧
    cleanupInstance stWitness "t" = stWitness := by
  refine ⟨?_, ?_, ?_, ?_⟩
  · exact ((cleanup_lifecycle stWitness "s").1 7 rfl).1
  · exact ((cleanup_lifecycle stWitness "s").1 7 rfl).2.1
  · exact ((cleanup_lifecycle stWitness "s").1 7 rfl).2.2.2 rawConsoleDefaults
  · exact (cleanup_lifecycle stWitness "t").2.1 rfl

/-- C10: a status code outside `[100, 599]` matches no class for any
assignment of the five flags, and consequently every entry returned by
`getNetworkLogs` has a status inside `[100, 599]`. -/
theorem out_of_range_status_never_returned {H : Type} (st : ServiceState H)
    (S : String) (nf : RawNetworkFilters) (out : List FormattedNetworkLog)
    (o : FormattedNetworkLog) :
    (∀ (sc : StatusCodes) (s : Int), s < 100 ∨ 599 < s →
      statusMatch sc s = false) ∧
    (getNetworkLogs st S nf = Except.ok out → o ∈ out →
      100 ≤ o.status ∧ o.status ≤ 599) := by
  have hkill : ∀ (sc : StatusCodes) (s : Int), s < 100 ∨ 599 < s →
      statusMatch sc s = false := by
    intro sc s hs
    rcases hs with hs | hs
    · simp only [statusMatch]
      rw [decide_eq_false (show ¬s ≥ 100 by omega),
        decide_eq_false (show ¬s ≥ 200 by omega),
        decide_eq_false (show ¬s ≥ 300 by omega),
        decide_eq_false (show ¬s ≥ 400 by omega),
        decide_eq_false (show ¬s ≥ 500 by omega)]
      simp
    · simp only [statusMatch]
      rw [decide_eq_false (show ¬s ≤ 199 by omega),
        decide_eq_false (show ¬s ≤ 299 by omega),
        decide_eq_false (show ¬s ≤ 399 by omega),
        decide_eq_false (show ¬s ≤ 499 by omega),
        decide_eq_false (show ¬s ≤ 599 by omega)]
      simp
  refine ⟨hkill, ?_⟩
  intro hok hmem
  cases hL : getLogs st S with
  | none =>
      rw [getNetworkLogs, hL] at hok
      exact absurd hok (by simp)
  | some logs =>
      rw [getNetworkLogs, hL] at hok
      have hout : (logs.network.filter
          (networkLogPasses (normalizeLogFilters nf))).map
          (formatNetworkLog (normalizeLogFilters nf)) = out := by
        injection hok
      rw [← hout] at hmem
      obtain ⟨l, hlmem, hfmt⟩ := List.mem_map.mp hmem
      have hpass := (List.mem_filter.mp hlmem).2
      simp only [networkLogPasses, Bool.and_eq_true] at hpass
      have hstat := hpass.1.2
      have hrange : 100 ≤ l.status ∧ l.status ≤ 599 := by
        by_cases hlo : l.status < 100
        · rw [hkill _ l.status (Or.inl hlo)] at hstat
          exact absurd hstat (by simp)
        · by_cases hhi : 599 < l.status
          · rw [hkill _ l.status (Or.inr hhi)] at hstat
            exact absurd hstat (by simp)
          · omega
      have hst : o.status = l.status := by
        rw [← hfmt]
        rfl
      rw [hst]
      exact hrange

/-- State used to witness C10: one stored network entry with status 0
and one with status 204. -/
def stNetWitness : ServiceState Nat :=
  { instances := [("s", 7)]
    logs := [("s",
      { console := []
        network :=
          [{ url := "http://a", method := "GET", status := 0, timestamp := 0,
             request := { headers := [], body := none, queryParams := "" },
             response := { headers := [], body := none } },
           { url := "http://b", method := "GET", status := 204, timestamp := 1,
             request := { headers := [], body := none, queryParams := "" },
             response := { headers := [], body := none } }]
        actErrors := ⟨[], [], []⟩ })] }

/-- Witness for C10: with all class flags true, the status-0 entry
matches no class, and the query on `stNetWitness` returns only the
status-204 entry, whose status lies in `[100, 599]`. -/
theorem out_of_range_status_never_returned_witness :
    statusMatch
      { info := true, success := true, redirect := true,
        clientError := true, serverError := true } 0 = false ∧
    (∀ o ∈ [formatNetworkLog (normalizeLogFilters rawNetworkDefaults)
        { url := "http://b", method := "GET", status := 204, timestamp := 1,
          request := { headers := [], body := none, queryParams := "" },
          response := { headers := [], body := none } }],
      100 ≤ o.status ∧ o.status ≤ 599) := by
  constructor
  · exact (out_of_range_status_never_returned stNetWitness "s"
      rawNetworkDefaults []
      (formatNetworkLog (normalizeLogFilters rawNetworkDefaults)
        { url := "http://b", method := "GET", status := 204, timestamp := 1,
          request := { headers := [], body := none, queryParams := "" },
          response := { headers := [], body := none } })).1
      { info := true, success := true, redirect := true,
        clientError := true, serverError := true } 0 (Or.inl (by decide))
  · intro o ho
    exact (out_of_range_status_never_returned stNetWitness "s"
      rawNetworkDefaults _ o).2 rfl ho

/-- C9: when reading a network response body fails, the entry is still
appended to the session's `network` sequence with the sentinel body
`"Could not parse response body"`; the other buckets are untouched, and
all fields other than the response body agree with what a successful
read would have recorded. -/
theorem body_read_failure_degrades_gracefully (logs : SessionLogs)
    (ev : RawResponseEvent) (err : String)
    (hfail : ev.bodyRead = Except.error err) :
    (ingestResponse logs ev).network =
      logs.network ++ [respEntry ev (some "Could not parse response body")] ∧
    (ingestResponse logs ev).console = logs.console ∧
    (ingestResponse logs ev).actErrors = logs.actErrors ∧
    (respEntry ev (bodyReadResult ev.bodyRead)).response.body =
      some "Could not parse response body" ∧
    (∀ b : String,
      (respEntry ev (bodyReadResult ev.bodyRead)).url =
        (respEntry ev (bodyReadResult (Except.ok b))).url ∧
      (respEntry ev (bodyReadResult ev.bodyRead)).method =
        (respEntry ev (bodyReadResult (Except.ok b))).method ∧
      (respEntry ev (bodyReadResult ev.bodyRead)).status =
        (respEntry ev (bodyReadResult (Except.ok b))).status ∧
      (respEntry ev (bodyReadResult ev.bodyRead)).timestamp =
        (respEntry ev (bodyReadResult (Except.ok b))).timestamp ∧
      (respEntry ev (bodyReadResult ev.bodyRead)).request =
        (respEntry ev (bodyReadResult (Except.ok b))).request ∧
      (respEntry ev (bodyReadResult ev.bodyRead)).response.headers =
        (respEntry ev (bodyReadResult (Except.ok b))).response.headers) := by
  refine ⟨?_, rfl, rfl, ?_, ?_⟩
  · simp [ingestResponse, hfail, bodyReadResult]
  · rw [hfail]
    rfl
  · intro b
    exact ⟨rfl, rfl, rfl, rfl, rfl, rfl⟩

/-- Event used to witness C9: a response whose body read fails. -/
def evWitness : RawResponseEvent :=
  { url := "http://a/x?q=1", method := "GET", status := 200, now := 5,
    requestHeaders := [("accept", "text/html")], postData := none,
    responseHeaders := [("content-type", "text/html")],
    bodyRead := Except.error "read aborted" }

/-- Witness for C9: ingesting `evWitness` into empty logs records one
entry with the sentinel body. -/
theorem body_read_failure_degrades_gracefully_witness :
    (ingestResponse SessionLogs.empty evWitness).network =
      [respEntry evWitness (some "Could not parse response body")] ∧
    (ingestResponse SessionLogs.empty evWitness).console = [] := by
  have h := body_read_failure_degrades_gracefully SessionLogs.empty
    evWitness "read aborted" rfl
  exact ⟨h.1, h.2.1⟩

end Wbac
